import Mathlib

/-!
Verification of the request-authentication and anomaly-classification core of
the secured-web-application backend.

The definitions below are a shallow embedding of the JavaScript source:
  - `src/backend/utils/crypto.js` (key thumbprints, DPoP proof verification,
    fingerprint hashing and similarity),
  - `src/backend/middleware/auth.js` (the authentication orchestrator with its
    jti replay cache),
  - `src/backend/middleware/security.js` (`compareFingerprints`),
  - `src/backend/middleware/antiScraping.js` (the behavioral classifier).

Modelling conventions:
  - JavaScript numbers that the code only ever uses as 32-bit values are
    modelled as `Nat` with explicit reduction modulo 2^32.
  - Heights/scores are `Nat`; quantities the code computes with fractional
    division (similarity scores, interval statistics) are `Rat`.
  - A header that the JS code reads with a falsy-coalescing default
    (for example `req.headers.accept || two quotes`) is modelled as a `String`
    where the empty string denotes an absent header, exactly the two cases the
    code can distinguish.
  - Strings are assumed to be ASCII, so `charCodeAt`, UTF-8 hashing and
    `toUpperCase` agree with their Lean counterparts per character.
-/

set_option maxRecDepth 1000000
set_option maxHeartbeats 2000000

namespace SecuredWeb

/-! ## 32-bit helpers and SHA-256 (crypto.createHash of Node) -/

def w32 (x : Nat) : Nat := x % 4294967296

def rotr32 (x n : Nat) : Nat := w32 ((x >>> n) ||| (x <<< (32 - n)))

def shaCh (x y z : Nat) : Nat := (x &&& y) ^^^ ((x ^^^ 4294967295) &&& z)

def shaMaj (x y z : Nat) : Nat := (x &&& y) ^^^ (x &&& z) ^^^ (y &&& z)

def bigSigma0 (x : Nat) : Nat := rotr32 x 2 ^^^ rotr32 x 13 ^^^ rotr32 x 22

def bigSigma1 (x : Nat) : Nat := rotr32 x 6 ^^^ rotr32 x 11 ^^^ rotr32 x 25

def smallSigma0 (x : Nat) : Nat := rotr32 x 7 ^^^ rotr32 x 18 ^^^ (x >>> 3)

def smallSigma1 (x : Nat) : Nat := rotr32 x 17 ^^^ rotr32 x 19 ^^^ (x >>> 10)

def shaK : List Nat :=
  [1116352408, 1899447441, 3049323471, 3921009573, 961987163,
   1508970993, 2453635748, 2870763221, 3624381080, 310598401,
   607225278, 1426881987, 1925078388, 2162078206, 2614888103,
   3248222580, 3835390401, 4022224774, 264347078, 604807628,
   770255983, 1249150122, 1555081692, 1996064986, 2554220882,
   2821834349, 2952996808, 3210313671, 3336571891, 3584528711,
   113926993, 338241895, 666307205, 773529912, 1294757372,
   1396182291, 1695183700, 1986661051, 2177026350, 2456956037,
   2730485921, 2820302411, 3259730800, 3345764771, 3516065817,
   3600352804, 4094571909, 275423344, 430227734, 506948616,
   659060556, 883997877, 958139571, 1322822218, 1537002063,
   1747873779, 1955562222, 2024104815, 2227730452, 2361852424,
   2428436474, 2756734187, 3204031479, 3329325298]

def shaH0 : List Nat :=
  [1779033703, 3144134277, 1013904242, 2773480762, 1359893119,
   2600822924, 528734635, 1541459225]

def bytesToWords : List Nat → List Nat
  | a :: b :: c :: d :: rest =>
      (a * 16777216 + b * 65536 + c * 256 + d) :: bytesToWords rest
  | _ => []

/-- Message-schedule extension, carrying the schedule reversed
(head is the most recent word). -/
def extendScheduleRev : Nat → List Nat → List Nat
  | 0, acc => acc
  | n + 1, acc =>
      let nw := w32 (acc.getD 15 0 + smallSigma0 (acc.getD 14 0) +
        acc.getD 6 0 + smallSigma1 (acc.getD 1 0))
      extendScheduleRev n (nw :: acc)

def shaRound (st : List Nat) (wk : Nat × Nat) : List Nat :=
  match st with
  | [a, b, c, d, e, f, g, h] =>
      let t1 := w32 (h + bigSigma1 e + shaCh e f g + wk.2 + wk.1)
      let t2 := w32 (bigSigma0 a + shaMaj a b c)
      [w32 (t1 + t2), a, b, c, w32 (d + t1), e, f, g]
  | other => other

def compressBlock (hs : List Nat) (block : List Nat) : List Nat :=
  let first16 := bytesToWords block
  let ws := (extendScheduleRev 48 first16.reverse).reverse
  let fin := (ws.zip shaK).foldl shaRound hs
  (hs.zip fin).map (fun p => w32 (p.1 + p.2))

def lenBE8 (n : Nat) : List Nat :=
  (List.range 8).map (fun i => (n >>> ((7 - i) * 8)) % 256)

def padBytes (msg : List Nat) : List Nat :=
  let len := msg.length
  let zeros := (64 + 56 - ((len + 1) % 64)) % 64
  msg ++ [128] ++ List.replicate zeros 0 ++ lenBE8 (len * 8)

def toBlocksFuel : Nat → List Nat → List (List Nat)
  | 0, _ => []
  | _, [] => []
  | f + 1, l => l.take 64 :: toBlocksFuel f (l.drop 64)

def toBlocks (l : List Nat) : List (List Nat) := toBlocksFuel l.length l

def wordBE4 (w : Nat) : List Nat :=
  [(w >>> 24) % 256, (w >>> 16) % 256, (w >>> 8) % 256, w % 256]

def sha256Bytes (msg : List Nat) : List Nat :=
  (((toBlocks (padBytes msg)).foldl compressBlock shaH0).map wordBE4).flatten

def hexDigit (n : Nat) : Char :=
  if n < 10 then Char.ofNat (48 + n) else Char.ofNat (87 + n)

def bytesToHex (bs : List Nat) : String :=
  String.mk (bs.foldr (fun b acc => hexDigit (b / 16) :: hexDigit (b % 16) :: acc) [])

def b64Alphabet : List Char :=
  "ABCDEFGHIJKLMNOPQRSTUVWXYZabcdefghijklmnopqrstuvwxyz0123456789-_".data

def b64Char (n : Nat) : Char := b64Alphabet.getD n 'A'

/-- Base64url without padding, as produced by digest of Node with the
base64url encoding. -/
def base64urlEncode : List Nat → List Char
  | [] => []
  | [a] => [b64Char (a >>> 2), b64Char ((a &&& 3) <<< 4)]
  | [a, b] =>
      [b64Char (a >>> 2), b64Char (((a &&& 3) <<< 4) ||| (b >>> 4)),
       b64Char ((b &&& 15) <<< 2)]
  | a :: b :: c :: rest =>
      b64Char (a >>> 2) :: b64Char (((a &&& 3) <<< 4) ||| (b >>> 4)) ::
      b64Char (((b &&& 15) <<< 2) ||| (c >>> 6)) :: b64Char (c &&& 63) ::
      base64urlEncode rest

def strToBytes (s : String) : List Nat := s.data.map Char.toNat

def sha256Base64url (s : String) : String :=
  String.mk (base64urlEncode (sha256Bytes (strToBytes s)))

/-- Sanity anchor for the SHA-256 embedding: the FIPS 180 test vector. -/
theorem sha256_abc_vector :
    bytesToHex (sha256Bytes (strToBytes "abc")) =
      "ba7816bf8f01cfea414140de5dae2223b00361a396177a9cb410ff61f20015ad" := by
  decide

/-! ## KeyThumbprint (generateKeyThumbprint of crypto.js) -/

/-- A caller-supplied JWK, modelled as an association list so that field
ordering and incidental extra fields are representable. -/
structure Jwk where
  fields : List (String × String)

def jwkGet (j : Jwk) (k : String) : Option String :=
  (j.fields.find? (fun p => p.1 == k)).map (fun p => p.2)

/-- One field of the canonical serialization; JSON.stringify drops fields
whose value is undefined. -/
def jsonStrField (k : String) (v : Option String) : List String :=
  match v with
  | none => []
  | some s => ["\"" ++ k ++ "\":\"" ++ s ++ "\""]

/-- The canonical JWK string built by generateKeyThumbprint: the object with
the fields crv, kty, x, y in that fixed insertion order. -/
def canonicalJwkString (j : Jwk) : String :=
  "\x7b" ++ String.intercalate ","
    (jsonStrField "crv" (jwkGet j "crv") ++ jsonStrField "kty" (jwkGet j "kty") ++
     jsonStrField "x" (jwkGet j "x") ++ jsonStrField "y" (jwkGet j "y")) ++ "\x7d"

def generateKeyThumbprint (j : Jwk) : String :=
  sha256Base64url (canonicalJwkString j)

/-! ## FingerprintMatcher (fingerprint.js) -/

/-- Normalized fingerprint data, the shape produced by the normalization block
of generateFingerprintHash (missing fields already coalesced to defaults). -/
structure Fingerprint where
  ua : String
  lang : String
  tz : String
  scr : String
  hwc : Nat
  mem : Nat
  platform : String
  webgl : String
deriving DecidableEq

/-- The string JSON.stringify(normalized, sortedKeys) produces: keys in sorted
order hwc, lang, mem, platform, scr, tz, ua, webgl. -/
def serializeFingerprint (fp : Fingerprint) : String :=
  "\x7b" ++
  "\"hwc\":" ++ toString fp.hwc ++
  ",\"lang\":\"" ++ fp.lang ++
  "\",\"mem\":" ++ toString fp.mem ++
  ",\"platform\":\"" ++ fp.platform ++
  "\",\"scr\":\"" ++ fp.scr ++
  "\",\"tz\":\"" ++ fp.tz ++
  "\",\"ua\":\"" ++ fp.ua ++
  "\",\"webgl\":\"" ++ fp.webgl ++ "\"" ++
  "\x7d"

/-- One step of the FNV-1a style loop of generateFingerprintHash. The JS code
mixes int32 coercions with exact double addition, but every intermediate is
only ever observed modulo 2^32, so the loop is computed in Nat mod 2^32. -/
def fnvStep (h c : Nat) : Nat :=
  let x := h ^^^ c
  w32 (x + (x <<< 1) + (x <<< 4) + (x <<< 7) + (x <<< 8) + (x <<< 24))

def fnvHash (s : String) : Nat :=
  s.data.foldl (fun h c => fnvStep h c.toNat) 2166136261

def natToHexAux : Nat → Nat → List Char → List Char
  | 0, _, acc => acc
  | f + 1, n, acc => if n = 0 then acc else natToHexAux f (n / 16) (hexDigit (n % 16) :: acc)

/-- Lowercase hexadecimal without leading zeros, as produced by toString(16). -/
def natToHex (n : Nat) : String :=
  if n = 0 then "0" else String.mk (natToHexAux 16 n [])

def generateFingerprintHash (fp : Fingerprint) : String :=
  natToHex (fnvHash (serializeFingerprint fp))

def digitsVal (l : List Char) : Nat :=
  l.foldl (fun a c => a * 10 + (c.toNat - 48)) 0

/-- Leftmost match of a pattern tag followed by one or more digits, capturing
the maximal digit run: the semantics of ua.match of the version regexes. -/
def scanTagVersion (tag : List Char) : List Char → Option Nat
  | [] => none
  | c :: rest =>
      if tag.isPrefixOf (c :: rest) then
        let ds := ((c :: rest).drop tag.length).takeWhile Char.isDigit
        if ds.isEmpty then scanTagVersion tag rest else some (digitsVal ds)
      else scanTagVersion tag rest

/-- Browser family labels in the order the patterns array tries them. The
label is used only for equality between two extraction results. -/
def browserTags : List String := ["Chrome", "Firefox", "Safari", "Edge", "Opera"]

def extractBrowserInfo (ua : String) : Option (String × Nat) :=
  browserTags.findSome? (fun t =>
    (scanTagVersion (t ++ "/").data ua.data).map (fun v => (t, v)))

/-- Row fill of the Levenshtein dynamic program: cs are the remaining column
characters, pr is the suffix of the previous row starting at the diagonal
cell, and left is the cell just written in the current row. -/
def levFill : List Char → Char → List Nat → Nat → List Nat
  | [], _, _, _ => []
  | cj :: cs, c2, pr, left =>
      let diag := pr.getD 0 0
      let up := pr.getD 1 0
      let cur := if cj = c2 then diag else 1 + Nat.min diag (Nat.min left up)
      cur :: levFill cs c2 pr.tail cur

def calculateLevenshteinDistance (s1 s2 : String) : Nat :=
  let row0 := List.range (s1.length + 1)
  let fin := s2.data.foldl (fun st c2 =>
      let i := st.1 + 1
      (i, i :: levFill s1.data c2 st.2 i)) (0, row0)
  fin.2.getLastD 0

def calculateStringSimilarity (s1 s2 : String) : ℚ :=
  if s1 = "" ∨ s2 = "" then 0
  else if s1 = s2 then 1
  else
    let longer := if s1.length > s2.length then s1 else s2
    let shorter := if s1.length > s2.length then s2 else s1
    if longer.length = 0 then 1
    else ((longer.length : ℚ) - calculateLevenshteinDistance longer shorter) / longer.length

def calculateUserAgentSimilarity (stored current : String) : ℚ :=
  if stored = "" ∨ current = "" then 0
  else if stored = current then 1
  else
    match extractBrowserInfo stored, extractBrowserInfo current with
    | some s, some c =>
        if s.1 = c.1 then
          let d : Nat := if c.2 ≤ s.2 then s.2 - c.2 else c.2 - s.2
          max 0 (1 - (d : ℚ) / 10)
        else 0
    | _, _ => calculateStringSimilarity stored current

/-- Per-field weights in the iteration order of Object.entries(weights). -/
def fpWeights : List (String × ℚ) :=
  [("ua", 3/10), ("lang", 1/10), ("tz", 1/10), ("scr", 2/10),
   ("hwc", 1/10), ("mem", 1/10), ("platform", 1/20), ("webgl", 1/20)]

def fpFieldEq (k : String) (a b : Fingerprint) : Bool :=
  if k = "ua" then a.ua == b.ua
  else if k = "lang" then a.lang == b.lang
  else if k = "tz" then a.tz == b.tz
  else if k = "scr" then a.scr == b.scr
  else if k = "hwc" then a.hwc == b.hwc
  else if k = "mem" then a.mem == b.mem
  else if k = "platform" then a.platform == b.platform
  else if k = "webgl" then a.webgl == b.webgl
  else true

def compareFingerprintSimilarity (stored current : Fingerprint) : ℚ :=
  let total := fpWeights.foldl (fun t p => t + p.2) 0
  let matched := fpWeights.foldl (fun m p =>
    if fpFieldEq p.1 stored current then m + p.2
    else if p.1 = "ua" then m + p.2 * calculateUserAgentSimilarity stored.ua current.ua
    else m) 0
  if 0 < total then matched / total else 0

set_option linter.unusedVariables false in
/-- The fingerprint gate of security.js: it hashes the current fingerprint and
compares the hashes for exact equality; the tolerance argument (0.7 at the
auth.js call site) is accepted but never read, matching the source. -/
def compareFingerprints (storedHash : String) (current : Fingerprint)
    (tolerance : ℚ) : Bool :=
  if storedHash = "" then false
  else storedHash == generateFingerprintHash current

/-! ## Concrete inputs used by witnesses and counterexamples -/

def cexFpStored : Fingerprint :=
  ⟨"Mozilla/5.0 (Macintosh) Chrome/120.0.0.0 Safari/537.36", "en-US",
   "America/New_York", "1920x1080", 8, 8, "MacIntel", "ANGLE Metal"⟩

def cexFpCurrent : Fingerprint :=
  { cexFpStored with platform := "Win32" }

def fp7a : Fingerprint :=
  ⟨"Mozilla/5.0 Chrome/100.0.0.0 Safari/537.36", "en-US", "Europe/Berlin",
   "1920x1080", 8, 8, "MacIntel", "ANGLE"⟩

def fp7b : Fingerprint :=
  { fp7a with ua := "Mozilla/5.0 Chrome/105.0.1.2 Safari/537.36" }

def wJwkA : Jwk :=
  ⟨[("kty", "EC"), ("crv", "P-256"), ("x", "f83OJ3D2xF1Bg8vub9tLe1gHMzV76e8Tus9uPHvRVEU"),
    ("y", "x_FEzRu9m36HLN_tue659LNpXW6pCyStikYjKIWI5a0"), ("ext", "true")]⟩

def wJwkB : Jwk :=
  ⟨[("crv", "P-256"), ("y", "x_FEzRu9m36HLN_tue659LNpXW6pCyStikYjKIWI5a0"),
    ("x", "f83OJ3D2xF1Bg8vub9tLe1gHMzV76e8Tus9uPHvRVEU"), ("kty", "EC"),
    ("use", "sig")]⟩

/-! ## Claim C8 -/

/-- C8: generateKeyThumbprint is a pure function of the canonical key fields
crv, kty, x and y: two representations agreeing on those fields produce the
same thumbprint regardless of other fields or of field ordering, and
recomputation always reproduces the same value. -/
theorem thumbprint_canonical (j1 j2 : Jwk)
    (hc : jwkGet j1 "crv" = jwkGet j2 "crv")
    (hk : jwkGet j1 "kty" = jwkGet j2 "kty")
    (hx : jwkGet j1 "x" = jwkGet j2 "x")
    (hy : jwkGet j1 "y" = jwkGet j2 "y") :
    generateKeyThumbprint j1 = generateKeyThumbprint j2 := by
  unfold generateKeyThumbprint canonicalJwkString
  rw [hc, hk, hx, hy]

/-- C8 witness: two JWKs with different field orders and different extra
fields but the same canonical material have equal thumbprints. -/
theorem thumbprint_canonical_witness :
    jwkGet wJwkA "crv" = jwkGet wJwkB "crv" ∧
    generateKeyThumbprint wJwkA = generateKeyThumbprint wJwkB :=
  ⟨rfl, thumbprint_canonical wJwkA wJwkB rfl rfl rfl rfl⟩

/-! ## Claim C2 -/

/-- C2 counterexample: a current fingerprint whose weighted similarity to the
stored one is 19/20, far above the 0.7 threshold, is still reported as a
mismatch by the orchestrator's gate, because compareFingerprints compares
FNV hashes for exact equality and never computes the similarity score. -/
theorem fingerprint_gate_cex :
    (7 : ℚ)/10 ≤ compareFingerprintSimilarity cexFpStored cexFpCurrent ∧
    compareFingerprints (generateFingerprintHash cexFpStored) cexFpCurrent
      ((7 : ℚ)/10) = false := by
  constructor
  · have h : compareFingerprintSimilarity cexFpStored cexFpCurrent = 19/20 := by
      simp [compareFingerprintSimilarity, fpWeights, fpFieldEq, cexFpStored, cexFpCurrent]
      norm_num
    rw [h]
    norm_num
  · decide

/-- C2 (amended): when a current fingerprint is supplied and a stored
fingerprint hash exists, the gate declares a match exactly when the stored
hash equals the FNV hash of the current fingerprint; the tolerance argument
(default 0.7) is ignored, so the outcome is independent of it. -/
theorem fingerprint_gate_exact_hash (storedHash : String) (current : Fingerprint)
    (t t' : ℚ) (hs : storedHash ≠ "") :
    (compareFingerprints storedHash current t = true ↔
      storedHash = generateFingerprintHash current) ∧
    compareFingerprints storedHash current t = compareFingerprints storedHash current t' := by
  unfold compareFingerprints
  simp [hs]

/-- C2 amended-claim witness at a concrete stored hash and fingerprint. -/
theorem fingerprint_gate_exact_hash_witness :
    generateFingerprintHash cexFpStored ≠ "" ∧
    (compareFingerprints (generateFingerprintHash cexFpStored) cexFpStored
        ((7 : ℚ)/10) = true ↔
      generateFingerprintHash cexFpStored = generateFingerprintHash cexFpStored) :=
  ⟨by decide,
   (fingerprint_gate_exact_hash (generateFingerprintHash cexFpStored) cexFpStored
     ((7 : ℚ)/10) 0 (by decide)).1⟩

/-! ## Claim C7 -/

/-- Helper: the user-agent similarity of two distinct user agents of the same
extracted browser family is the version-proximity function. -/
theorem uaSim_same_family (s c : String) (fam : String) (v1 v2 : Nat)
    (hu : s ≠ c)
    (h1 : extractBrowserInfo s = some (fam, v1))
    (h2 : extractBrowserInfo c = some (fam, v2)) :
    calculateUserAgentSimilarity s c =
      max 0 (1 - ((if v2 ≤ v1 then v1 - v2 else v2 - v1 : Nat) : ℚ) / 10) := by
  have hnone : extractBrowserInfo "" = none := by rfl
  have hsne : s ≠ "" := by
    intro h
    rw [h, hnone] at h1
    exact Option.noConfusion h1
  have hcne : c ≠ "" := by
    intro h
    rw [h, hnone] at h2
    exact Option.noConfusion h2
  unfold calculateUserAgentSimilarity
  rw [if_neg (by tauto), if_neg hu, h1, h2]
  simp

/-- C7 counterexample: two fingerprints differing only in the user agent,
same family (Chrome) with version delta exactly 5, contribute exactly half of
the user-agent weight, not strictly more than half as the claim states. -/
theorem ua_version_contribution_cex :
    extractBrowserInfo fp7a.ua = some ("Chrome", 100) ∧
    extractBrowserInfo fp7b.ua = some ("Chrome", 105) ∧
    compareFingerprintSimilarity fp7a fp7b = 17/20 ∧
    ¬ ((17 : ℚ)/20 - 7/10 > (1/2) * (3/10)) := by
  have hua : calculateUserAgentSimilarity fp7a.ua fp7b.ua = 1/2 := by
    rw [uaSim_same_family fp7a.ua fp7b.ua "Chrome" 100 105 (by decide) (by decide) (by decide)]
    rw [max_eq_right (by norm_num)]
    norm_num
  simp only [fp7a, fp7b] at hua
  refine ⟨by decide, by decide, ?_, by norm_num⟩
  simp [compareFingerprintSimilarity, fpWeights, fpFieldEq, fp7a, fp7b, hua]
  norm_num

/-- C7 (amended): for fingerprints identical except in the user agent, with
both user agents of the same extracted browser family and major versions v1
and v2, the user-agent field contributes its weight 0.3 times
max(0, 1 - delta/10); for delta at most 5 that contribution is at least
(not strictly above) half of the field's full weight. -/
theorem ua_version_contribution (a b : Fingerprint) (fam : String) (v1 v2 : Nat)
    (hl : a.lang = b.lang) (ht : a.tz = b.tz) (hs : a.scr = b.scr)
    (hh : a.hwc = b.hwc) (hm : a.mem = b.mem) (hp : a.platform = b.platform)
    (hw : a.webgl = b.webgl) (hu : a.ua ≠ b.ua)
    (h1 : extractBrowserInfo a.ua = some (fam, v1))
    (h2 : extractBrowserInfo b.ua = some (fam, v2)) :
    compareFingerprintSimilarity a b =
      7/10 + (3/10) * max 0 (1 - ((if v2 ≤ v1 then v1 - v2 else v2 - v1 : Nat) : ℚ) / 10) ∧
    ((if v2 ≤ v1 then v1 - v2 else v2 - v1 : Nat) ≤ 5 →
      (1/2) * (3/10) ≤
        (3/10) * max 0 (1 - ((if v2 ≤ v1 then v1 - v2 else v2 - v1 : Nat) : ℚ) / 10)) := by
  constructor
  · obtain ⟨ua1, lang1, tz1, scr1, hwc1, mem1, plat1, web1⟩ := a
    obtain ⟨ua2, lang2, tz2, scr2, hwc2, mem2, plat2, web2⟩ := b
    simp only at hl ht hs hh hm hp hw hu h1 h2
    subst hl ht hs hh hm hp hw
    unfold compareFingerprintSimilarity
    dsimp only
    rw [uaSim_same_family ua1 ua2 fam v1 v2 hu h1 h2]
    simp only [fpWeights, List.foldl_cons, List.foldl_nil, fpFieldEq]
    rw [beq_eq_false_iff_ne.mpr hu]
    simp
    split
    · ring
    · next h =>
        norm_num at h
  · intro hd
    set d : Nat := if v2 ≤ v1 then v1 - v2 else v2 - v1 with hdd
    have hq : (d : ℚ) ≤ 5 := by exact_mod_cast hd
    have hmax : max 0 (1 - (d : ℚ) / 10) = 1 - (d : ℚ) / 10 := by
      rw [max_eq_right]
      linarith
    rw [hmax]
    linarith

/-- C7 amended-claim witness at the concrete Chrome/100 vs Chrome/105 pair. -/
theorem ua_version_contribution_witness :
    fp7a.ua ≠ fp7b.ua ∧
    compareFingerprintSimilarity fp7a fp7b =
      7/10 + (3/10) * max 0 (1 - ((5 : Nat) : ℚ) / 10) :=
  ⟨by decide,
   (ua_version_contribution fp7a fp7b "Chrome" 100 105 rfl rfl rfl rfl rfl rfl rfl
     (by decide) (by decide) (by decide)).1⟩

/-! ## ProofVerifier (verifyDPoP of crypto.js) -/

/-- Uppercase per character, the behaviour of toUpperCase on ASCII method
names (defined over the character list so that it evaluates in the kernel). -/
def jsToUpper (s : String) : String := String.mk (s.data.map Char.toUpper)

/-- Decoded DPoP JWT header. -/
structure DpopHeaderRec where
  alg : String
  typ : String
deriving DecidableEq

/-- Decoded DPoP JWT payload. A payload whose iat claim is absent is conflated
by the code with iat 0, since the guard is the falsy test on payload.iat;
an absent jti is likewise conflated with the empty string. -/
structure DpopPayloadRec where
  htm : String
  htu : String
  iat : Int
  jti : String
deriving DecidableEq

inductive DpopError
  | invalidHeader
  | methodMismatch
  | urlMismatch
  | timestampInvalid
  | missingJti
  | invalidSignature
deriving DecidableEq

inductive DpopResult
  | ok (jti : String) (iat : Int)
  | error (e : DpopError)
deriving DecidableEq

/-- The claim checks of verifyDPoP in source order, applied to the parsed
header and payload. The asymmetric signature verification performed by the
jose library is an external collaborator and enters as the sigValid oracle;
now is Date.now in whole seconds. -/
def verifyDPoP (hdr : DpopHeaderRec) (payload : DpopPayloadRec) (sigValid : Bool)
    (method url : String) (now : Int) : DpopResult :=
  if hdr.alg ≠ "ES256" ∨ hdr.typ ≠ "dpop+jwt" then .error .invalidHeader
  else if payload.htm ≠ jsToUpper method then .error .methodMismatch
  else if payload.htu ≠ url then .error .urlMismatch
  else if payload.iat = 0 ∨ (now - payload.iat).natAbs > 300 then .error .timestampInvalid
  else if payload.jti = "" then .error .missingJti
  else if ¬ sigValid then .error .invalidSignature
  else .ok payload.jti payload.iat

/-! ## Claim C3 -/

/-- C3 counterexample: a proof whose issuedAt differs from verification time
by exactly 300 seconds is rejected when issuedAt is 0, because the falsy
check on payload.iat treats the timestamp 0 as missing; every other claim
and the signature are valid. -/
theorem dpop_timestamp_boundary_cex :
    ((300 : Int) - 0).natAbs = 300 ∧
    verifyDPoP ⟨"ES256", "dpop+jwt"⟩ ⟨"GET", "https://h/x", 0, "jti-1"⟩ true
      "GET" "https://h/x" 300 = .error .timestampInvalid := by
  decide

/-- C3 (amended): with valid header, method, url, jti and signature, and a
nonzero issuedAt, verification succeeds exactly when issuedAt is within 300
seconds of verification time in either direction, the boundary included; a
zero issuedAt is treated as missing and rejected even inside the window. -/
theorem dpop_timestamp_window (hdr : DpopHeaderRec) (payload : DpopPayloadRec)
    (method url : String) (now : Int)
    (ha : hdr.alg = "ES256") (hty : hdr.typ = "dpop+jwt")
    (hm : payload.htm = jsToUpper method) (hq : payload.htu = url)
    (hj : payload.jti ≠ "") (hi : payload.iat ≠ 0) :
    verifyDPoP hdr payload true method url now = .ok payload.jti payload.iat ↔
      (now - payload.iat).natAbs ≤ 300 := by
  unfold verifyDPoP
  rw [if_neg (by simp [ha, hty]), if_neg (by simp [hm]), if_neg (by simp [hq])]
  constructor
  · intro h
    by_contra hgt
    rw [if_pos (Or.inr (by omega))] at h
    exact DpopResult.noConfusion h
  · intro h
    rw [if_neg (by omega), if_neg (by simp [hj])]
    simp

/-- C3 amended-claim witness: a proof issued exactly 300 seconds before
verification time, with nonzero issuedAt, is accepted. -/
theorem dpop_timestamp_window_witness :
    verifyDPoP ⟨"ES256", "dpop+jwt"⟩ ⟨"GET", "https://h/x", 1000, "jti-1"⟩ true
      "GET" "https://h/x" 1300 = .ok "jti-1" 1000 :=
  (dpop_timestamp_window ⟨"ES256", "dpop+jwt"⟩ ⟨"GET", "https://h/x", 1000, "jti-1"⟩
    "GET" "https://h/x" 1300 rfl rfl (by decide) rfl (by decide) (by decide)).mpr
    (by decide)

/-! ## Claim C4 -/

/-- C4 counterexample: a proof claiming method get (lowercase) is rejected
with a method mismatch against the request method GET, although the two are
equal case-insensitively; the code uppercases only the request method and
compares it for strict equality with the claimed method. -/
theorem dpop_method_case_cex :
    jsToUpper "get" = jsToUpper "GET" ∧
    verifyDPoP ⟨"ES256", "dpop+jwt"⟩ ⟨"get", "https://h/x", 1000, "jti-1"⟩ true
      "GET" "https://h/x" 1000 = .error .methodMismatch := by
  decide

/-- C4 (amended): with a valid header, the method check fails with a method
mismatch exactly when the claimed method differs from the uppercased request
method: the request method is compared case-insensitively, but the claimed
method must already be uppercase. -/
theorem dpop_method_check (hdr : DpopHeaderRec) (payload : DpopPayloadRec)
    (sigValid : Bool) (method url : String) (now : Int)
    (ha : hdr.alg = "ES256") (hty : hdr.typ = "dpop+jwt") :
    verifyDPoP hdr payload sigValid method url now = .error .methodMismatch ↔
      payload.htm ≠ jsToUpper method := by
  unfold verifyDPoP
  rw [if_neg (by simp [ha, hty])]
  by_cases hm : payload.htm = jsToUpper method
  · rw [if_neg (by simp [hm])]
    constructor
    · intro h
      exfalso
      split at h
      · exact DpopError.noConfusion (DpopResult.error.inj h)
      · split at h
        · exact DpopError.noConfusion (DpopResult.error.inj h)
        · split at h
          · exact DpopError.noConfusion (DpopResult.error.inj h)
          · split at h
            · exact DpopError.noConfusion (DpopResult.error.inj h)
            · exact DpopResult.noConfusion h
    · intro h
      exact absurd hm h
  · rw [if_pos (by simp [hm])]
    simp [hm]

/-- C4 amended-claim witness: the lowercase claimed method get against the
request method get is a mismatch even though the strings agree up to case. -/
theorem dpop_method_check_witness :
    verifyDPoP ⟨"ES256", "dpop+jwt"⟩ ⟨"get", "https://h/x", 1000, "jti-1"⟩ true
      "get" "https://h/x" 1000 = .error .methodMismatch :=
  (dpop_method_check ⟨"ES256", "dpop+jwt"⟩ ⟨"get", "https://h/x", 1000, "jti-1"⟩
    true "get" "https://h/x" 1000 rfl rfl).mpr (by decide)

/-! ## AuthenticationOrchestrator (authenticateToken of auth.js) -/

/-- Prefix test over the character lists, the behaviour of startsWith (defined
so that it evaluates in the kernel). -/
def jsStartsWith (s pre : String) : Bool := pre.data.isPrefixOf s.data

/-- Claims of the bearer token already verified by the external token
collaborator. A missing cnf.jkt is conflated with the empty string and a
missing device_key_id with 0, matching the falsy guards of the code. -/
structure TokenPayload where
  sub : Nat
  jkt : String
  deviceKeyId : Nat
deriving DecidableEq

/-- The device-key row returned by the database lookup. publicKeyJwkRaw is
none when JSON.parse of the stored key fails; an SQL NULL fingerprint hash is
conflated with the empty string, matching the falsy guard. -/
structure DeviceKeyRec where
  publicKeyJwkRaw : Option Jwk
  fingerprintHash : String
  username : String
  email : String

/-- Inputs of one request as authenticateToken reads them. The X-Fingerprint
header arrives already parsed; an absent or unparseable header is none (an
unparseable header leads to the same mismatch outcome as a wrong one and is
not needed by any claim). -/
structure AuthReq where
  authorization : String
  dpopPresent : Bool
  dpopHeaderRec : DpopHeaderRec
  dpopPayload : DpopPayloadRec
  dpopSigValid : Bool
  method : String
  url : String
  xFingerprint : Option Fingerprint
  now : Int

/-- Environment configuration read from process.env. -/
structure AuthEnv where
  production : Bool
  tolerance : ℚ

inductive AuthResult
  | missingAuthHeader
  | missingDpop
  | invalidToken
  | notDeviceBound
  | deviceKeyNotFound
  | invalidStoredKey
  | thumbprintMismatch
  | invalidDpopProof (e : DpopError)
  | replayDetected
  | deviceVerificationFailed
  | success (fpMismatchFlag : Bool)
deriving DecidableEq

/-- The request flow of authenticateToken, returning the verdict and the
updated jti replay cache. The bearer-token verification, the database lookup
and the DPoP signature check are external collaborators and enter as the
tokenPayload, deviceKey and dpopSigValid inputs; the IP-validation and
last-used updates touch only the database and never alter verdict or cache. -/
def authenticateToken (env : AuthEnv) (cache : List String) (req : AuthReq)
    (tokenPayload : Option TokenPayload) (deviceKey : Option DeviceKeyRec) :
    AuthResult × List String :=
  if ¬ jsStartsWith req.authorization "Bearer " then (.missingAuthHeader, cache)
  else if ¬ req.dpopPresent then (.missingDpop, cache)
  else
    match tokenPayload with
    | none => (.invalidToken, cache)
    | some tp =>
      if tp.jkt = "" ∨ tp.deviceKeyId = 0 then (.notDeviceBound, cache)
      else
        match deviceKey with
        | none => (.deviceKeyNotFound, cache)
        | some dk =>
          match dk.publicKeyJwkRaw with
          | none => (.invalidStoredKey, cache)
          | some jwk =>
            if generateKeyThumbprint jwk ≠ tp.jkt then (.thumbprintMismatch, cache)
            else
              match verifyDPoP req.dpopHeaderRec req.dpopPayload req.dpopSigValid
                  req.method req.url req.now with
              | .error e => (.invalidDpopProof e, cache)
              | .ok jti _ =>
                if cache.contains jti then (.replayDetected, cache)
                else
                  let cache1 := jti :: cache
                  match req.xFingerprint with
                  | some cur =>
                    if dk.fingerprintHash ≠ "" ∧
                        compareFingerprints dk.fingerprintHash cur env.tolerance = false then
                      if env.production then (.deviceVerificationFailed, cache1)
                      else (.success true, cache1)
                    else (.success false, cache1)
                  | none => (.success false, cache1)

/-! ## Claim C1 -/

/-- C1: after successful proof verification (all earlier gates pass and
verifyDPoP returns ok), the replay check accepts a jti not yet in the cache
and records it, and rejects with replayDetected every request whose jti is
already in the cache. -/
theorem auth_replay_check (env : AuthEnv) (cache : List String) (req : AuthReq)
    (tp : TokenPayload) (dk : DeviceKeyRec) (jwk : Jwk) (jti : String) (iat : Int)
    (h1 : jsStartsWith req.authorization "Bearer " = true)
    (h2 : req.dpopPresent = true)
    (h3 : tp.jkt ≠ "") (h4 : tp.deviceKeyId ≠ 0)
    (h5 : dk.publicKeyJwkRaw = some jwk)
    (h6 : generateKeyThumbprint jwk = tp.jkt)
    (h7 : verifyDPoP req.dpopHeaderRec req.dpopPayload req.dpopSigValid
        req.method req.url req.now = .ok jti iat) :
    (jti ∉ cache →
      (authenticateToken env cache req (some tp) (some dk)).1 ≠ .replayDetected ∧
      jti ∈ (authenticateToken env cache req (some tp) (some dk)).2) ∧
    (jti ∈ cache →
      (authenticateToken env cache req (some tp) (some dk)).1 = .replayDetected) := by
  refine ⟨fun hmem => ?_, fun hmem => ?_⟩
  · cases hx : req.xFingerprint <;>
      simp [authenticateToken, h1, h2, h3, h4, h5, h6, h7, hmem, hx] <;>
      split <;> (try split) <;> simp
  · simp [authenticateToken, h1, h2, h3, h4, h5, h6, h7, hmem]

/-! ### Concrete authentication scenario inputs -/

def wDpopHeader : DpopHeaderRec := ⟨"ES256", "dpop+jwt"⟩

def wDpopPayload : DpopPayloadRec := ⟨"GET", "https://h/api/posts", 1000, "w-jti-1"⟩

def wTokenPayload : TokenPayload := ⟨7, generateKeyThumbprint wJwkA, 3⟩

def wDeviceKeyPlain : DeviceKeyRec := ⟨some wJwkA, "", "alice", "alice@example.com"⟩

def wAuthReq : AuthReq :=
  ⟨"Bearer tok", true, wDpopHeader, wDpopPayload, true, "GET",
   "https://h/api/posts", none, 1000⟩

/-- C1 witness: on the empty cache the concrete request is not flagged as a
replay and its jti is recorded; a second request with the same jti is
rejected as a replay. -/
theorem auth_replay_check_witness :
    ((authenticateToken ⟨false, 7/10⟩ [] wAuthReq (some wTokenPayload)
        (some wDeviceKeyPlain)).1 ≠ .replayDetected ∧
      "w-jti-1" ∈ (authenticateToken ⟨false, 7/10⟩ [] wAuthReq (some wTokenPayload)
        (some wDeviceKeyPlain)).2) ∧
    (authenticateToken ⟨false, 7/10⟩ ["w-jti-1"] wAuthReq (some wTokenPayload)
        (some wDeviceKeyPlain)).1 = .replayDetected :=
  ⟨(auth_replay_check ⟨false, 7/10⟩ [] wAuthReq wTokenPayload wDeviceKeyPlain wJwkA
      "w-jti-1" 1000 (by decide) rfl (by decide) (by decide) rfl rfl (by decide)).1
      (by decide),
   (auth_replay_check ⟨false, 7/10⟩ ["w-jti-1"] wAuthReq wTokenPayload wDeviceKeyPlain
      wJwkA "w-jti-1" 1000 (by decide) rfl (by decide) (by decide) rfl rfl (by decide)).2
      (by decide)⟩

/-! ## Claim C9 -/

/-- C9: when authentication is rejected after the replay check has passed (a
fingerprint-mismatch rejection in production), the jti of the presented proof
stays recorded in the replay cache, and replaying the same request against
the resulting cache is rejected as a replay: the cache is not rolled back. -/
theorem auth_fp_reject_keeps_jti (env : AuthEnv) (cache : List String)
    (req : AuthReq) (tp : TokenPayload) (dk : DeviceKeyRec) (jwk : Jwk)
    (jti : String) (iat : Int)
    (h1 : jsStartsWith req.authorization "Bearer " = true)
    (h2 : req.dpopPresent = true)
    (h3 : tp.jkt ≠ "") (h4 : tp.deviceKeyId ≠ 0)
    (h5 : dk.publicKeyJwkRaw = some jwk)
    (h6 : generateKeyThumbprint jwk = tp.jkt)
    (h7 : verifyDPoP req.dpopHeaderRec req.dpopPayload req.dpopSigValid
        req.method req.url req.now = .ok jti iat)
    (hr : (authenticateToken env cache req (some tp) (some dk)).1 =
        .deviceVerificationFailed) :
    jti ∈ (authenticateToken env cache req (some tp) (some dk)).2 ∧
    (authenticateToken env
        (authenticateToken env cache req (some tp) (some dk)).2
        req (some tp) (some dk)).1 = .replayDetected := by
  have hmem : jti ∉ cache := by
    intro hin
    have hrep : (authenticateToken env cache req (some tp) (some dk)).1 = .replayDetected := by
      simp [authenticateToken, h1, h2, h3, h4, h5, h6, h7, hin]
    rw [hrep] at hr
    exact AuthResult.noConfusion hr
  have hsnd : (authenticateToken env cache req (some tp) (some dk)).2 = jti :: cache := by
    cases hx : req.xFingerprint <;>
      simp [authenticateToken, h1, h2, h3, h4, h5, h6, h7, hmem, hx] <;>
      split <;> (try split) <;> simp
  refine ⟨?_, ?_⟩
  · rw [hsnd]
    exact List.mem_cons_self jti cache
  · rw [hsnd]
    simp [authenticateToken, h1, h2, h3, h4, h5, h6, h7]

def wDpopPayloadC9 : DpopPayloadRec := ⟨"GET", "https://h/api/posts", 1000, "w-jti-9"⟩

def wDeviceKeyFp : DeviceKeyRec :=
  ⟨some wJwkA, generateFingerprintHash cexFpStored, "alice", "alice@example.com"⟩

def wAuthReqC9 : AuthReq :=
  ⟨"Bearer tok", true, wDpopHeader, wDpopPayloadC9, true, "GET",
   "https://h/api/posts", some cexFpCurrent, 1000⟩

/-- C9 witness: a concrete production request rejected for a fingerprint
mismatch leaves its jti in the cache, and an identical retry is rejected as a
replay. -/
theorem auth_fp_reject_keeps_jti_witness :
    (authenticateToken ⟨true, 7/10⟩ [] wAuthReqC9 (some wTokenPayload)
        (some wDeviceKeyFp)).1 = .deviceVerificationFailed ∧
    "w-jti-9" ∈ (authenticateToken ⟨true, 7/10⟩ [] wAuthReqC9 (some wTokenPayload)
        (some wDeviceKeyFp)).2 ∧
    (authenticateToken ⟨true, 7/10⟩
        (authenticateToken ⟨true, 7/10⟩ [] wAuthReqC9 (some wTokenPayload)
          (some wDeviceKeyFp)).2
        wAuthReqC9 (some wTokenPayload) (some wDeviceKeyFp)).1 = .replayDetected :=
  ⟨by decide,
   (auth_fp_reject_keeps_jti ⟨true, 7/10⟩ [] wAuthReqC9 wTokenPayload wDeviceKeyFp
      wJwkA "w-jti-9" 1000 (by decide) rfl (by decide) (by decide) rfl rfl
      (by decide) (by decide)).1,
   (auth_fp_reject_keeps_jti ⟨true, 7/10⟩ [] wAuthReqC9 wTokenPayload wDeviceKeyFp
      wJwkA "w-jti-9" 1000 (by decide) rfl (by decide) (by decide) rfl rfl
      (by decide) (by decide)).2⟩

/-! ## RequestClassifier (antiScraping.js) -/

def jsToLower (s : String) : String := String.mk (s.data.map Char.toLower)

/-- Contiguous-substring test over character lists: the semantics of
String.prototype.includes. -/
def listHasInfix (needle : List Char) : List Char → Bool
  | [] => needle.isEmpty
  | c :: rest => needle.isPrefixOf (c :: rest) || listHasInfix needle rest

def strHasSub (hay needle : String) : Bool := listHasInfix needle.data hay.data

/-- Headers of one request as the middleware reads them; a header the code
reads with a falsy default is a String where the empty string denotes an
absent header. -/
structure ASRequest where
  path : String
  method : String
  userAgent : String
  accept : String
  acceptLanguage : String
  acceptEncoding : String
  referer : String
  authorization : String
deriving DecidableEq

structure PatternEntry where
  timestamp : Int
  path : String
  method : String
  userAgent : String
deriving DecidableEq

/-- The per-client record of requestPatterns: requests in insertion order,
paths and userAgents as insertion-ordered sets, and the derived score. -/
structure RequestPattern where
  requests : List PatternEntry
  paths : List String
  userAgents : List String
  suspicionScore : Nat
deriving DecidableEq

/-- Set insertion for the JS Set fields (only size and membership are ever
read, so an insertion-ordered duplicate-free list is a faithful model). -/
def insertUnique (l : List String) (s : String) : List String :=
  if l.contains s then l else l ++ [s]

def emptyPattern : RequestPattern := ⟨[], [], [], 0⟩

/-- Consecutive inter-arrival differences, requests[i+1] minus requests[i]. -/
def consecutiveDiffs : List Int → List Int
  | a :: b :: rest => (b - a) :: consecutiveDiffs (b :: rest)
  | _ => []

def intervalMean (ds : List Int) : ℚ :=
  ((ds.foldl (· + ·) 0 : Int) : ℚ) / (ds.length : ℚ)

def intervalVariance (ds : List Int) : ℚ :=
  let avg := intervalMean ds
  (ds.foldl (fun (acc : ℚ) (iv : Int) => acc + ((iv : ℚ) - avg) * ((iv : ℚ) - avg)) 0) /
    (ds.length : ℚ)

/-- Trailing integer of a path per the regex match of a slash followed by
digits at the end of the string: the maximal digit suffix preceded by a
slash. -/
def trailingSlashNat (path : String) : Option Nat :=
  let rev := path.data.reverse
  let ds := rev.takeWhile Char.isDigit
  if ds.isEmpty then none
  else
    match rev.drop ds.length with
    | '/' :: _ => some (digitsVal ds.reverse)
    | _ => none

def hasSequentialPaths (paths : List String) : Bool :=
  paths.any (fun path =>
    match trailingSlashNat path with
    | some n =>
        paths.contains ("/" ++ toString ((n : Int) + 1)) ||
        paths.contains ("/" ++ toString ((n : Int) - 1))
    | none => false)

/-- Signal 1: request frequency. -/
def volumeSignal (p : RequestPattern) : Nat :=
  if p.requests.length > 50 then 30
  else if p.requests.length > 20 then 15 else 0

/-- Signal 2: very uniform inter-arrival intervals with a short mean. -/
def timingSignal (p : RequestPattern) : Nat :=
  if p.requests.length > 5 then
    let ds := consecutiveDiffs (p.requests.map (fun r => r.timestamp))
    if intervalVariance ds < 1000 ∧ intervalMean ds < 5000 then 25 else 0
  else 0

/-- Signal 3: path diversity, distinct paths over total requests. -/
def diversitySignal (p : RequestPattern) : Nat :=
  if p.requests.length > 10 then
    let diversity : ℚ := (p.paths.length : ℚ) / (p.requests.length : ℚ)
    (if diversity > 8/10 then 20 else 0) + (if diversity < 1/10 then 15 else 0)
  else 0

/-- Signal 4: sequential path access. -/
def seqSignal (p : RequestPattern) : Nat :=
  if hasSequentialPaths p.paths then 20 else 0

/-- Signal 5: user-agent churn. -/
def churnSignal (p : RequestPattern) : Nat :=
  if p.userAgents.length > 3 then 15 else 0

/-- calculateSuspicionScore: the five independently-capped signals summed and
clamped at 100. -/
def calculateSuspicionScore (p : RequestPattern) : Nat :=
  if p.requests.length = 0 then 0
  else
    Nat.min (volumeSignal p + timingSignal p + diversitySignal p +
      seqSignal p + churnSignal p) 100

/-- analyzeRequestPattern: append the request, extend the path and user-agent
sets, trim entries older than ten minutes, recompute the score. -/
def analyzeRequestPattern (now : Int) (req : ASRequest) (p : RequestPattern) :
    RequestPattern :=
  let requests1 := p.requests ++ [⟨now, req.path, req.method, req.userAgent⟩]
  let paths1 := insertUnique p.paths req.path
  let uas1 := insertUnique p.userAgents req.userAgent
  let requests2 := requests1.filter (fun r => now - r.timestamp < 600000)
  let trimmed : RequestPattern := ⟨requests2, paths1, uas1, 0⟩
  { trimmed with suspicionScore := calculateSuspicionScore trimmed }

/-- The literal alternatives of the four case-insensitive bot user-agent
regexes. -/
def botUaKeywords : List String :=
  ["bot", "crawler", "spider", "scraper", "curl", "wget", "python", "java",
   "go-http", "headless", "phantom", "selenium", "webdriver", "postman",
   "insomnia", "httpie"]

def countMissingEssential (req : ASRequest) : Nat :=
  (([req.accept, req.acceptLanguage, req.acceptEncoding]).filter
    (fun h => h == "")).length

/-- detectBot: user-agent keywords, missing content-negotiation headers,
wildcard or empty accept, tracked score above 70, or missing referrer on a
deep non-API path. -/
def detectBot (req : ASRequest) (p : Option RequestPattern) : Bool :=
  (botUaKeywords.any (fun t => listHasInfix t.data (jsToLower req.userAgent).data)) ||
  decide (countMissingEssential req > 1) ||
  (req.accept == "*/*" || req.accept == "") ||
  (match p with
   | some pat => decide (pat.suspicionScore > 70)
   | none => false) ||
  (req.referer == "" && !(req.path == "/") && !(jsStartsWith req.path "/api/"))

def isRequestTooFrequent (now : Int) (p : Option RequestPattern) : Bool :=
  match p with
  | none => false
  | some pat =>
      decide ((pat.requests.filter (fun r => now - r.timestamp < 60000)).length > 30)

def validateBrowserHeaders (req : ASRequest) : Bool :=
  (strHasSub req.accept "text/html" || jsStartsWith req.path "/api/") &&
  strHasSub req.acceptEncoding "gzip" &&
  (!(req.acceptLanguage == "") || jsStartsWith req.path "/api/") &&
  (decide (req.userAgent.length ≥ 20) && strHasSub req.userAgent "Mozilla")

inductive ASOutcome
  | passed
  | botBlocked
  | rateLimited
  | headerBlocked
deriving DecidableEq

/-- The progressive penalty of handleSuspiciousActivity adds 20 to the stored
score without clamping. -/
def bumpScore (p : RequestPattern) : RequestPattern :=
  { p with suspicionScore := p.suspicionScore + 20 }

/-- One pass of the anti-scraping middleware for one client identity:
authorized API calls are skipped before any recording; otherwise the pattern
is analyzed and then the bot, frequency and browser-header gates run in
order, the latter two applying the penalty. -/
def middlewareStep (now : Int) (st : Option RequestPattern) (req : ASRequest) :
    ASOutcome × Option RequestPattern :=
  if jsStartsWith req.path "/api/" && !(req.authorization == "") then (.passed, st)
  else
    let p := analyzeRequestPattern now req (st.getD emptyPattern)
    if detectBot req (some p) then (.botBlocked, some p)
    else if isRequestTooFrequent now (some p) then (.rateLimited, some (bumpScore p))
    else if !(validateBrowserHeaders req) then (.headerBlocked, some (bumpScore p))
    else (.passed, some p)

/-- The periodic cleanup: trim to one hour and evict an emptied pattern. -/
def cleanupStep (now : Int) (st : Option RequestPattern) : Option RequestPattern :=
  match st with
  | none => none
  | some p =>
      let kept := p.requests.filter (fun r => now - r.timestamp < 3600000)
      if kept.length = 0 then none else some { p with requests := kept }

/-- An event touching one client's pattern: a middleware pass or a cleanup
tick. -/
inductive ASEvent
  | request (now : Int) (req : ASRequest)
  | cleanup (now : Int)

def stepEvent (st : Option RequestPattern) : ASEvent → Option RequestPattern
  | .request now req => (middlewareStep now st req).2
  | .cleanup now => cleanupStep now st

/-- All states of one client's behavior window reachable from absence through
middleware passes and cleanups. -/
def runEvents (events : List ASEvent) : Option RequestPattern :=
  events.foldl stepEvent none

/-! ## Claim C10 -/

/-- C10: a request whose path starts with /api/ and that carries a (nonempty)
Authorization header is passed through immediately: the middleware records no
pattern, updates no score, and runs no bot, frequency or header check — the
outcome is passed and the client state is returned unchanged. -/
theorem api_auth_requests_skipped (now : Int) (st : Option RequestPattern)
    (req : ASRequest)
    (hpath : jsStartsWith req.path "/api/" = true)
    (hauth : req.authorization ≠ "") :
    middlewareStep now st req = (.passed, st) := by
  simp [middlewareStep, hpath, hauth]

/-- C10 witness: a concrete authorized API request passes through with the
state unchanged even though its headers would otherwise trip the bot gate. -/
theorem api_auth_requests_skipped_witness :
    middlewareStep 0 none ⟨"/api/posts", "GET", "curl/8", "*/*", "", "", "", "Bearer t"⟩ =
      (.passed, none) :=
  api_auth_requests_skipped 0 none
    ⟨"/api/posts", "GET", "curl/8", "*/*", "", "", "", "Bearer t"⟩
    (by decide) (by decide)

/-! ## Claim C6 -/

/-- The recomputed score is always clamped at 100. -/
theorem calc_score_le_100 (p : RequestPattern) : calculateSuspicionScore p ≤ 100 := by
  unfold calculateSuspicionScore
  split
  · exact Nat.zero_le 100
  · exact Nat.min_le_right _ 100

/-- The analyzed pattern carries the recomputed, clamped score. -/
theorem analyze_score_le_100 (now : Int) (req : ASRequest) (p : RequestPattern) :
    (analyzeRequestPattern now req p).suspicionScore ≤ 100 := by
  unfold analyzeRequestPattern
  exact calc_score_le_100 _

/-- If the bot gate does not fire, the tracked score is at most 70, because a
score above 70 is itself one of the bot conditions. -/
theorem detectBot_false_score_le (req : ASRequest) (p : RequestPattern)
    (h : detectBot req (some p) = false) : p.suspicionScore ≤ 70 := by
  unfold detectBot at h
  simp only [Bool.or_eq_false_iff] at h
  have h70 := h.1.2
  rw [decide_eq_false_iff_not] at h70
  omega

/-- One middleware pass either leaves the state alone or stores a pattern
whose score is at most 100: the penalty branches are reachable only past the
bot gate, which bounds the freshly recomputed score by 70. -/
theorem middlewareStep_state (now : Int) (st : Option RequestPattern)
    (req : ASRequest) :
    (middlewareStep now st req).2 = st ∨
    ∃ p, (middlewareStep now st req).2 = some p ∧ p.suspicionScore ≤ 100 := by
  by_cases h0 : (jsStartsWith req.path "/api/" && !(req.authorization == "")) = true
  · left
    simp [middlewareStep, h0]
  · right
    have hple := analyze_score_le_100 now req (st.getD emptyPattern)
    by_cases h1 : detectBot req (some (analyzeRequestPattern now req (st.getD emptyPattern))) = true
    · exact ⟨_, by simp [middlewareStep, h0, h1], hple⟩
    · have hb1 : detectBot req (some (analyzeRequestPattern now req (st.getD emptyPattern))) = false := by
        simpa using h1
      have h70 := detectBot_false_score_le _ _ hb1
      by_cases h2 : isRequestTooFrequent now (some (analyzeRequestPattern now req (st.getD emptyPattern))) = true
      · refine ⟨bumpScore (analyzeRequestPattern now req (st.getD emptyPattern)),
          by simp [middlewareStep, h0, hb1, h2], ?_⟩
        simp only [bumpScore]
        omega
      · have hb2 : isRequestTooFrequent now (some (analyzeRequestPattern now req (st.getD emptyPattern))) = false := by
          simpa using h2
        by_cases h3 : validateBrowserHeaders req = true
        · exact ⟨_, by simp [middlewareStep, h0, hb1, hb2, h3], hple⟩
        · have hb3 : validateBrowserHeaders req = false := by simpa using h3
          refine ⟨bumpScore (analyzeRequestPattern now req (st.getD emptyPattern)),
            by simp [middlewareStep, h0, hb1, hb2, hb3], ?_⟩
          simp only [bumpScore]
          omega

/-- One event preserves the score bound. -/
theorem stepEvent_score_le (st : Option RequestPattern) (ev : ASEvent)
    (h : ∀ q, st = some q → q.suspicionScore ≤ 100) :
    ∀ q, stepEvent st ev = some q → q.suspicionScore ≤ 100 := by
  intro q hq
  cases ev with
  | request now req =>
      have hq' : (middlewareStep now st req).2 = some q := hq
      rcases middlewareStep_state now st req with hs | ⟨p, hps, hle⟩
      · rw [hs] at hq'
        exact h q hq'
      · rw [hps] at hq'
        cases hq'
        exact hle
  | cleanup now =>
      have hq' : cleanupStep now st = some q := hq
      cases st with
      | none => exact Option.noConfusion hq'
      | some p =>
          unfold cleanupStep at hq'
          dsimp only at hq'
          split at hq'
          · exact Option.noConfusion hq'
          · cases hq'
            exact h p rfl

/-- Folding events preserves the score bound. -/
theorem runEvents_aux_score_le (events : List ASEvent) :
    ∀ st, (∀ q, st = some q → q.suspicionScore ≤ 100) →
      ∀ q, events.foldl stepEvent st = some q → q.suspicionScore ≤ 100 := by
  induction events with
  | nil => intro st h q hq; exact h q hq
  | cons e es ih =>
      intro st h q hq
      rw [List.foldl_cons] at hq
      exact ih (stepEvent st e) (stepEvent_score_le st e h) q hq

/-- C6: in every reachable state of a client's behavior window — including
the states produced by the +20 penalty of handleSuspiciousActivity — the
stored suspicion score lies in the interval [0, 100]. The penalty branch is
only reachable when the bot gate did not fire, which forces the freshly
recomputed score to be at most 70, so even the unclamped +20 stays below the
cap. -/
theorem suspicion_score_in_range (events : List ASEvent) (p : RequestPattern)
    (h : runEvents events = some p) :
    0 ≤ p.suspicionScore ∧ p.suspicionScore ≤ 100 :=
  ⟨Nat.zero_le _, runEvents_aux_score_le events none (by intro q hq; exact Option.noConfusion hq) p h⟩

/-- C6 witness: a concrete two-request trace (the second request takes the
header penalty) stays within the range. -/
theorem suspicion_score_in_range_witness :
    (∃ p, runEvents
      [ASEvent.request 0 ⟨"/a", "GET", "Mozilla/5.0 (X11; Linux x86_64) Gecko", "text/html", "en", "gzip", "/", ""⟩,
       ASEvent.request 1000 ⟨"/b", "GET", "Mozilla/5.0 (X11; Linux x86_64) Gecko", "text/html", "en", "", "/", ""⟩] = some p ∧
      0 ≤ p.suspicionScore ∧ p.suspicionScore ≤ 100) :=
  match hp : runEvents
      [ASEvent.request 0 ⟨"/a", "GET", "Mozilla/5.0 (X11; Linux x86_64) Gecko", "text/html", "en", "gzip", "/", ""⟩,
       ASEvent.request 1000 ⟨"/b", "GET", "Mozilla/5.0 (X11; Linux x86_64) Gecko", "text/html", "en", "", "/", ""⟩] with
  | some p => ⟨p, rfl, suspicion_score_in_range _ p hp⟩
  | none => by
      exfalso
      revert hp
      decide

/-! ## Claim C5 -/

def toEntry (q : Int × ASRequest) : PatternEntry :=
  ⟨q.1, q.2.path, q.2.method, q.2.userAgent⟩

/-- Folding analyzeRequestPattern over a burst of requests for one client. -/
def runAnalyze (p0 : RequestPattern) (reqs : List (Int × ASRequest)) : RequestPattern :=
  reqs.foldl (fun st q => analyzeRequestPattern q.1 q.2 st) p0

theorem analyze_requests_step (now : Int) (req : ASRequest) (p : RequestPattern)
    (hkeep : ∀ e ∈ p.requests, now - e.timestamp < 600000) :
    (analyzeRequestPattern now req p).requests =
      p.requests ++ [⟨now, req.path, req.method, req.userAgent⟩] := by
  unfold analyzeRequestPattern
  dsimp only
  rw [List.filter_eq_self.mpr]
  intro a ha
  rcases List.mem_append.mp ha with h | h
  · rw [decide_eq_true_iff]
    exact hkeep a h
  · rw [List.mem_singleton] at h
    subst h
    rw [decide_eq_true_iff]
    simp

theorem runAnalyze_requests (reqs : List (Int × ASRequest)) :
    ∀ p0 : RequestPattern,
      (∀ e ∈ p0.requests, ∀ q ∈ reqs, q.1 - e.timestamp < 600000) →
      (∀ a ∈ reqs, ∀ b ∈ reqs, b.1 - a.1 < 600000) →
      (runAnalyze p0 reqs).requests = p0.requests ++ reqs.map toEntry := by
  induction reqs with
  | nil =>
      intro p0 _ _
      simp [runAnalyze]
  | cons q rest ih =>
      intro p0 hold hspan
      have hstep : (analyzeRequestPattern q.1 q.2 p0).requests = p0.requests ++ [toEntry q] :=
        analyze_requests_step q.1 q.2 p0
          (fun e he => hold e he q (List.mem_cons_self q rest))
      have hnext : (runAnalyze (analyzeRequestPattern q.1 q.2 p0) rest).requests =
          (analyzeRequestPattern q.1 q.2 p0).requests ++ rest.map toEntry := by
        apply ih
        · intro e he r hr
          rw [hstep] at he
          rcases List.mem_append.mp he with h | h
          · exact hold e h r (List.mem_cons_of_mem q hr)
          · rw [List.mem_singleton] at h
            subst h
            exact hspan q (List.mem_cons_self q rest) r (List.mem_cons_of_mem q hr)
        · intro a ha b hb
          exact hspan a (List.mem_cons_of_mem q ha) b (List.mem_cons_of_mem q hb)
      have hrun : runAnalyze p0 (q :: rest) = runAnalyze (analyzeRequestPattern q.1 q.2 p0) rest := rfl
      rw [hrun, hnext, hstep, List.append_assoc]
      rfl

theorem runAnalyze_paths (reqs : List (Int × ASRequest)) :
    ∀ p0 : RequestPattern,
      (runAnalyze p0 reqs).paths =
        reqs.foldl (fun acc q => insertUnique acc q.2.path) p0.paths := by
  induction reqs with
  | nil =>
      intro p0
      simp [runAnalyze]
  | cons q rest ih =>
      intro p0
      have hrun : runAnalyze p0 (q :: rest) = runAnalyze (analyzeRequestPattern q.1 q.2 p0) rest := rfl
      rw [hrun, ih]
      rfl

theorem foldl_insertUnique_nodup (l : List String) :
    ∀ acc : List String, (acc ++ l).Nodup → l.foldl insertUnique acc = acc ++ l := by
  induction l with
  | nil =>
      intro acc _
      simp
  | cons x xs ih =>
      intro acc hnd
      have hxn : x ∉ acc := by
        rcases List.nodup_append.mp hnd with ⟨_, _, hdisj⟩
        intro hin
        exact hdisj hin (List.mem_cons_self x xs)
      have hcontains : acc.contains x = false := by
        simpa using hxn
      rw [List.foldl_cons]
      have hins : insertUnique acc x = acc ++ [x] := by
        unfold insertUnique
        rw [hcontains]
        simp
      rw [hins, ih (acc ++ [x]) (by simpa using hnd)]
      simp

theorem analyze_score_eq (now : Int) (req : ASRequest) (p : RequestPattern) :
    (analyzeRequestPattern now req p).suspicionScore =
      calculateSuspicionScore (analyzeRequestPattern now req p) := rfl

theorem runAnalyze_score (p0 : RequestPattern) (reqs : List (Int × ASRequest))
    (hne : reqs ≠ []) :
    (runAnalyze p0 reqs).suspicionScore =
      calculateSuspicionScore (runAnalyze p0 reqs) := by
  obtain ⟨l, x, rfl⟩ : ∃ l x, reqs = l ++ [x] := by
    rcases List.eq_nil_or_concat reqs with h | ⟨l, b, h⟩
    · exact absurd h hne
    · exact ⟨l, b, by simpa [List.concat_eq_append] using h⟩
  unfold runAnalyze
  rw [List.foldl_append]
  exact analyze_score_eq x.1 x.2 _

/-- C5: a client issuing 60 requests to 60 distinct paths within one minute,
at inter-arrival intervals of variance below the fixed threshold and short
mean, ends with a stored suspicion score of at least 70, and the bot verdict
fires for every request evaluated against that state (the Flagged
classification). The sequential-path shape of the claim is a special case of
the distinct-path hypothesis and is used in the witness. -/
theorem flagged_sequential_burst (reqs : List (Int × ASRequest))
    (hlen : reqs.length = 60)
    (hnodup : (reqs.map (fun q => q.2.path)).Nodup)
    (hspan : ∀ a ∈ reqs, ∀ b ∈ reqs, (a.1 - b.1).natAbs ≤ 60000)
    (hvar : intervalVariance (consecutiveDiffs (reqs.map (fun q => q.1))) < 1000)
    (hmean : intervalMean (consecutiveDiffs (reqs.map (fun q => q.1))) < 5000) :
    70 ≤ (runAnalyze emptyPattern reqs).suspicionScore ∧
    ∀ r, detectBot r (some (runAnalyze emptyPattern reqs)) = true := by
  have hne : reqs ≠ [] := by
    intro h
    rw [h] at hlen
    exact absurd hlen (by decide)
  have hreqs : (runAnalyze emptyPattern reqs).requests = reqs.map toEntry := by
    have h := runAnalyze_requests reqs emptyPattern
      (by intro e he; exact absurd he (by simp [emptyPattern]))
      (by
        intro a ha b hb
        have := hspan b hb a ha
        omega)
    simpa [emptyPattern] using h
  have hpaths : (runAnalyze emptyPattern reqs).paths = reqs.map (fun q => q.2.path) := by
    rw [runAnalyze_paths]
    show reqs.foldl (fun acc q => insertUnique acc q.2.path) emptyPattern.paths = _
    rw [show emptyPattern.paths = [] from rfl, ← List.foldl_map]
    exact foldl_insertUnique_nodup _ [] (by simpa using hnodup)
  have hlen2 : (runAnalyze emptyPattern reqs).requests.length = 60 := by
    rw [hreqs, List.length_map, hlen]
  have hplen : (runAnalyze emptyPattern reqs).paths.length = 60 := by
    rw [hpaths, List.length_map, hlen]
  have hts : (runAnalyze emptyPattern reqs).requests.map (fun r => r.timestamp) =
      reqs.map (fun q => q.1) := by
    rw [hreqs, List.map_map]
    rfl
  have hvol : volumeSignal (runAnalyze emptyPattern reqs) = 30 := by
    unfold volumeSignal
    rw [hlen2]
    decide
  have htim : timingSignal (runAnalyze emptyPattern reqs) = 25 := by
    unfold timingSignal
    rw [hlen2]
    rw [if_pos (by omega)]
    dsimp only
    rw [hts]
    rw [if_pos ⟨hvar, hmean⟩]
  have hdiv : diversitySignal (runAnalyze emptyPattern reqs) = 20 := by
    unfold diversitySignal
    rw [hlen2, hplen]
    rw [if_pos (by omega)]
    dsimp only
    rw [if_pos (by norm_num), if_neg (by norm_num)]
  have hscore75 : 75 ≤ (runAnalyze emptyPattern reqs).suspicionScore := by
    rw [runAnalyze_score emptyPattern reqs hne]
    unfold calculateSuspicionScore
    rw [if_neg (by rw [hlen2]; omega)]
    rw [hvol, htim, hdiv]
    generalize seqSignal (runAnalyze emptyPattern reqs) = s4
    generalize churnSignal (runAnalyze emptyPattern reqs) = s5
    refine Nat.le_min.mpr ⟨by omega, by omega⟩
  have h70 : 70 < (runAnalyze emptyPattern reqs).suspicionScore :=
    lt_of_lt_of_le (by norm_num) hscore75
  refine ⟨le_trans (by norm_num) hscore75, ?_⟩
  intro r
  simp [detectBot, h70]

theorem foldl_add_replicate (n : Nat) (c : Int) :
    ∀ a : Int, (List.replicate n c).foldl (· + ·) a = a + n * c := by
  induction n with
  | zero =>
      intro a
      simp
  | succ m ih =>
      intro a
      rw [List.replicate_succ, List.foldl_cons, ih (a + c)]
      push_cast
      ring

theorem intervalMean_replicate (n : Nat) (c : Int) (hn : n ≠ 0) :
    intervalMean (List.replicate n c) = (c : ℚ) := by
  unfold intervalMean
  rw [foldl_add_replicate n c 0, List.length_replicate]
  have hnq : (n : ℚ) ≠ 0 := Nat.cast_ne_zero.mpr hn
  push_cast
  field_simp

theorem foldl_sq_replicate (n : Nat) (c : Int) :
    ∀ a : ℚ, (List.replicate n c).foldl
      (fun (acc : ℚ) (iv : Int) => acc + ((iv : ℚ) - (c : ℚ)) * ((iv : ℚ) - (c : ℚ))) a = a := by
  induction n with
  | zero =>
      intro a
      simp
  | succ m ih =>
      intro a
      simp only [List.replicate_succ, List.foldl_cons, sub_self, mul_zero, add_zero]
      exact ih a

theorem intervalVariance_replicate (n : Nat) (c : Int) (hn : n ≠ 0) :
    intervalVariance (List.replicate n c) = 0 := by
  unfold intervalVariance
  dsimp only
  rw [intervalMean_replicate n c hn, foldl_sq_replicate n c 0]
  simp

/-- Sixty requests, one per second, to the sequential paths /1 through /60,
from one scripted client. -/
def wScrapeReqs : List (Int × ASRequest) :=
  (List.range 60).map (fun i =>
    (((1000 * i : Nat) : Int),
     ⟨"/" ++ toString (i + 1), "GET", "Mozilla/5.0 ScrapeClient", "text/html",
      "en", "gzip", "", ""⟩))

/-- C5 witness: the concrete sequential one-minute burst ends with score at
least 70 and the bot verdict fires against the resulting state. -/
theorem flagged_sequential_burst_witness :
    70 ≤ (runAnalyze emptyPattern wScrapeReqs).suspicionScore ∧
    detectBot ⟨"/61", "GET", "Mozilla/5.0 ScrapeClient", "text/html", "en", "gzip", "", ""⟩
      (some (runAnalyze emptyPattern wScrapeReqs)) = true := by
  have hds : consecutiveDiffs (wScrapeReqs.map (fun q => q.1)) =
      List.replicate 59 1000 := by decide
  have h := flagged_sequential_burst wScrapeReqs (by decide) (by decide) (by decide)
    (by rw [hds, intervalVariance_replicate 59 1000 (by decide)]; norm_num)
    (by rw [hds, intervalMean_replicate 59 1000 (by decide)]; norm_num)
  exact ⟨h.1, h.2 _⟩

end SecuredWeb
